import Mathlib

/-!
Verification development for the Turbine functional core.

Shallow embedding of the pure core of the repository:
`src/core/types.ts` (data model, confidence arithmetic, convergence
predicate), `src/core/evolve.ts` (the evolver) and the decider
(`decide.ts`).  JavaScript numbers are modelled as rationals, `Date`
timestamps as naturals (epoch milliseconds), string-keyed records of
unknowns as association lists over a small `Value` type, and branded
uuid strings as plain strings.  The two impure reads inside the decider
(`uuid()` and `new Date()` in `decideRequestCheckpoint`) are modelled as
explicit inputs `freshId` and `now` threaded through `decide`.
-/

namespace Turbine

/-- Timestamps: JS `Date` values, modelled as epoch milliseconds. -/
abbrev Timestamp := Nat

/-- Waterfall phases (`Phase` in types.ts). -/
inductive Phase
  | requirements
  | design
  | implementation
  | testing
  | documentation
  | verification
deriving DecidableEq, Repr

/-- `PHASE_ORDER` from types.ts. -/
def PHASE_ORDER : List Phase :=
  [Phase.requirements, Phase.design, Phase.implementation,
   Phase.testing, Phase.documentation, Phase.verification]

/-- The runtime string value of a `Phase` tag (phases are strings in JS). -/
def Phase.toStr : Phase → String
  | Phase.requirements => "requirements"
  | Phase.design => "design"
  | Phase.implementation => "implementation"
  | Phase.testing => "testing"
  | Phase.documentation => "documentation"
  | Phase.verification => "verification"

structure ChecklistItem where
  id : String
  phase : Phase
  description : String
  completed : Bool
  evidence : Option String
  completedAt : Option Timestamp
deriving DecidableEq, Repr

structure Artifact where
  id : String
  path : String
  hash : String
  phase : Phase
  createdAt : Timestamp
  updatedAt : Timestamp
deriving DecidableEq, Repr

structure TurnBudget where
  phase : Phase
  maxTurns : Nat
  usedTurns : Nat
deriving DecidableEq, Repr

structure TestResult where
  passed : Bool
  totalTests : Nat
  passedTests : Nat
  failedTests : Nat
  coverage : Option ℚ
  failures : List (String × String)
deriving DecidableEq, Repr

/-- The `confidence` sub-record of `State` in types.ts. -/
structure Confidence where
  typesSafe : Bool
  schemaValid : Bool
  testsPass : Bool
  coverage : ℚ
  checklistComplete : Bool
  overallScore : ℚ
deriving DecidableEq, Repr

structure CheckpointProgress where
  completed : Nat
  total : Nat
deriving DecidableEq, Repr

structure CheckpointSummary where
  id : String
  phase : Phase
  turn : Nat
  checklistProgress : CheckpointProgress
  artifactCount : Nat
  confidence : ℚ
  createdAt : Timestamp
deriving DecidableEq, Repr

/-- The aggregate `State` of types.ts. -/
structure State where
  phase : Phase
  turn : Nat
  prompt : String
  checklist : List ChecklistItem
  artifacts : List Artifact
  budgets : List TurnBudget
  confidence : Confidence
  pendingCheckpoint : Option CheckpointSummary
  lastApprovedCheckpoint : Option CheckpointSummary
  convergenceStreak : Nat
  converged : Bool
  startedAt : Timestamp
  lastActivityAt : Timestamp
deriving DecidableEq, Repr

/-- Default per-phase turn budgets (`getDefaultBudget` in types.ts). -/
def getDefaultBudget : Phase → Nat
  | Phase.requirements => 50
  | Phase.design => 100
  | Phase.implementation => 500
  | Phase.testing => 200
  | Phase.documentation => 100
  | Phase.verification => 50

/-- `createInitialState` from types.ts.  The two `new Date()` reads are
modelled by the explicit `now` input. -/
def createInitialState (prompt : String) (now : Timestamp) : State :=
  { phase := Phase.requirements
    turn := 0
    prompt := prompt
    checklist := []
    artifacts := []
    budgets := PHASE_ORDER.map fun phase =>
      { phase := phase, maxTurns := getDefaultBudget phase, usedTurns := 0 }
    confidence :=
      { typesSafe := false, schemaValid := false, testsPass := false
        coverage := 0, checklistComplete := false, overallScore := 0 }
    pendingCheckpoint := none
    lastApprovedCheckpoint := none
    convergenceStreak := 0
    converged := false
    startedAt := now
    lastActivityAt := now }

/-- `calculateOverallConfidence` from types.ts (float literals become the
rationals they denote). -/
def calculateOverallConfidence (confidence : Confidence) : ℚ :=
  if confidence.typesSafe = false then 0
  else if confidence.schemaValid = false then 0
  else if confidence.testsPass = false then 3/10
  else
    let coverageScore := min (confidence.coverage / 80) 1 * (1/4)
    let checklistScore : ℚ := if confidence.checklistComplete then 1/4 else 0
    let baseScore : ℚ := 1/2
    baseScore + coverageScore + checklistScore

def CONVERGENCE_THRESHOLD : ℚ := 9/10

def CONVERGENCE_STREAK_REQUIRED : Nat := 3

/-- `hasConverged` from types.ts. -/
def hasConverged (state : State) : Bool :=
  Decidable.decide (CONVERGENCE_THRESHOLD ≤ state.confidence.overallScore) &&
  Decidable.decide (CONVERGENCE_STREAK_REQUIRED ≤ state.convergenceStreak)

/-- Events (`Event` in types.ts); every constructor carries the event
timestamp as its last argument. -/
inductive Event
  | Initialized (prompt : String) (checklist : List ChecklistItem)
      (budgets : List TurnBudget) (timestamp : Timestamp)
  | PhaseStarted (phase : Phase) (budget : TurnBudget) (timestamp : Timestamp)
  | PhaseCompleted (phase : Phase) (turnsUsed : Nat) (timestamp : Timestamp)
  | TurnStarted (turn : Nat) (phase : Phase) (timestamp : Timestamp)
  | TurnCompleted (turn : Nat) (phase : Phase) (tokensUsed : Nat) (timestamp : Timestamp)
  | ArtifactCreated (artifact : Artifact) (timestamp : Timestamp)
  | ArtifactUpdated (artifactId : String) (newHash : String) (timestamp : Timestamp)
  | ChecklistItemCompleted (itemId : String) (evidence : String) (timestamp : Timestamp)
  | TestsPassed (result : TestResult) (timestamp : Timestamp)
  | TestsFailed (result : TestResult) (timestamp : Timestamp)
  | TypeCheckPassed (timestamp : Timestamp)
  | TypeCheckFailed (errors : List String) (timestamp : Timestamp)
  | ConfidenceUpdated (confidence : Confidence) (timestamp : Timestamp)
  | CheckpointCreated (summary : CheckpointSummary) (timestamp : Timestamp)
  | CheckpointApproved (checkpointId : String) (timestamp : Timestamp)
  | CheckpointRejected (checkpointId : String) (reason : String) (timestamp : Timestamp)
  | ConvergenceReached (finalConfidence : ℚ) (totalTurns : Nat) (timestamp : Timestamp)
  | BudgetExhausted (phase : Phase) (turnsUsed : Nat) (timestamp : Timestamp)
  | ErrorOccurred (message : String) (recoverable : Bool) (timestamp : Timestamp)
deriving DecidableEq, Repr

/-- The timestamp carried by an event. -/
def Event.timestamp : Event → Timestamp
  | Event.Initialized _ _ _ t => t
  | Event.PhaseStarted _ _ t => t
  | Event.PhaseCompleted _ _ t => t
  | Event.TurnStarted _ _ t => t
  | Event.TurnCompleted _ _ _ t => t
  | Event.ArtifactCreated _ t => t
  | Event.ArtifactUpdated _ _ t => t
  | Event.ChecklistItemCompleted _ _ t => t
  | Event.TestsPassed _ t => t
  | Event.TestsFailed _ t => t
  | Event.TypeCheckPassed t => t
  | Event.TypeCheckFailed _ t => t
  | Event.ConfidenceUpdated _ t => t
  | Event.CheckpointCreated _ t => t
  | Event.CheckpointApproved _ t => t
  | Event.CheckpointRejected _ _ t => t
  | Event.ConvergenceReached _ _ t => t
  | Event.BudgetExhausted _ _ t => t
  | Event.ErrorOccurred _ _ t => t

/-- `evolveInitialized` from evolve.ts. -/
def evolveInitialized (state : State) (prompt : String)
    (checklist : List ChecklistItem) (budgets : List TurnBudget)
    (timestamp : Timestamp) : State :=
  { state with
    prompt := prompt
    checklist := checklist
    budgets := budgets
    phase := Phase.requirements
    turn := 0
    startedAt := timestamp
    lastActivityAt := timestamp }

/-- `evolvePhaseStarted` from evolve.ts. -/
def evolvePhaseStarted (state : State) (phase : Phase) (budget : TurnBudget)
    (timestamp : Timestamp) : State :=
  let updatedBudgets := state.budgets.map fun b =>
    if b.phase = phase then budget else b
  { state with
    phase := phase
    budgets := updatedBudgets
    lastActivityAt := timestamp }

/-- `evolvePhaseCompleted` from evolve.ts: marks the budget used and
advances to the next phase in `PHASE_ORDER` (or stays when terminal). -/
def evolvePhaseCompleted (state : State) (phase : Phase) (turnsUsed : Nat)
    (timestamp : Timestamp) : State :=
  let updatedBudgets := state.budgets.map fun b =>
    if b.phase = phase then { b with usedTurns := turnsUsed } else b
  let currentIndex := PHASE_ORDER.indexOf phase
  let nextPhase := PHASE_ORDER.getD (currentIndex + 1) phase
  { state with
    phase := nextPhase
    budgets := updatedBudgets
    lastActivityAt := timestamp }

/-- `evolveTurnStarted` from evolve.ts: overwrites the turn counter. -/
def evolveTurnStarted (state : State) (turn : Nat) (timestamp : Timestamp) : State :=
  { state with turn := turn, lastActivityAt := timestamp }

/-- `evolveTurnCompleted` from evolve.ts. -/
def evolveTurnCompleted (state : State) (phase : Phase) (timestamp : Timestamp) : State :=
  let updatedBudgets := state.budgets.map fun b =>
    if b.phase = phase then { b with usedTurns := b.usedTurns + 1 } else b
  { state with budgets := updatedBudgets, lastActivityAt := timestamp }

/-- `evolveArtifactCreated` from evolve.ts. -/
def evolveArtifactCreated (state : State) (artifact : Artifact)
    (timestamp : Timestamp) : State :=
  { state with
    artifacts := state.artifacts ++ [artifact]
    lastActivityAt := timestamp }

/-- `evolveArtifactUpdated` from evolve.ts. -/
def evolveArtifactUpdated (state : State) (artifactId : String) (newHash : String)
    (timestamp : Timestamp) : State :=
  let updatedArtifacts := state.artifacts.map fun a =>
    if a.id = artifactId then { a with hash := newHash, updatedAt := timestamp } else a
  { state with artifacts := updatedArtifacts, lastActivityAt := timestamp }

/-- `evolveChecklistItemCompleted` from evolve.ts. -/
def evolveChecklistItemCompleted (state : State) (itemId : String)
    (evidence : String) (timestamp : Timestamp) : State :=
  let updatedChecklist := state.checklist.map fun item =>
    if item.id = itemId then
      { item with
        completed := true
        evidence := some evidence
        completedAt := some timestamp }
    else item
  let checklistComplete := updatedChecklist.all fun item => item.completed
  let updatedConfidence0 := { state.confidence with checklistComplete := checklistComplete }
  let updatedConfidence :=
    { updatedConfidence0 with overallScore := calculateOverallConfidence updatedConfidence0 }
  { state with
    checklist := updatedChecklist
    confidence := updatedConfidence
    lastActivityAt := timestamp }

/-- `evolveTestsPassed` from evolve.ts. -/
def evolveTestsPassed (state : State) (result : TestResult)
    (timestamp : Timestamp) : State :=
  let updatedConfidence0 :=
    { state.confidence with
      testsPass := true
      coverage := result.coverage.getD state.confidence.coverage }
  let updatedConfidence :=
    { updatedConfidence0 with overallScore := calculateOverallConfidence updatedConfidence0 }
  let newStreak := state.convergenceStreak + 1
  { state with
    confidence := updatedConfidence
    convergenceStreak := newStreak
    converged := hasConverged
      { state with confidence := updatedConfidence, convergenceStreak := newStreak }
    lastActivityAt := timestamp }

/-- `evolveTestsFailed` from evolve.ts. -/
def evolveTestsFailed (state : State) (result : TestResult)
    (timestamp : Timestamp) : State :=
  let updatedConfidence0 :=
    { state.confidence with
      testsPass := false
      coverage := result.coverage.getD state.confidence.coverage }
  let updatedConfidence :=
    { updatedConfidence0 with overallScore := calculateOverallConfidence updatedConfidence0 }
  { state with
    confidence := updatedConfidence
    convergenceStreak := 0
    lastActivityAt := timestamp }

/-- `evolveTypeCheckPassed` from evolve.ts. -/
def evolveTypeCheckPassed (state : State) (timestamp : Timestamp) : State :=
  let updatedConfidence0 := { state.confidence with typesSafe := true }
  let updatedConfidence :=
    { updatedConfidence0 with overallScore := calculateOverallConfidence updatedConfidence0 }
  { state with confidence := updatedConfidence, lastActivityAt := timestamp }

/-- `evolveTypeCheckFailed` from evolve.ts. -/
def evolveTypeCheckFailed (state : State) (timestamp : Timestamp) : State :=
  let updatedConfidence0 := { state.confidence with typesSafe := false }
  let updatedConfidence :=
    { updatedConfidence0 with overallScore := calculateOverallConfidence updatedConfidence0 }
  { state with
    confidence := updatedConfidence
    convergenceStreak := 0
    lastActivityAt := timestamp }

/-- `evolveConfidenceUpdated` from evolve.ts. -/
def evolveConfidenceUpdated (state : State) (confidence : Confidence)
    (timestamp : Timestamp) : State :=
  { state with
    confidence := confidence
    converged := hasConverged { state with confidence := confidence }
    lastActivityAt := timestamp }

/-- `evolveCheckpointCreated` from evolve.ts. -/
def evolveCheckpointCreated (state : State) (summary : CheckpointSummary)
    (timestamp : Timestamp) : State :=
  { state with pendingCheckpoint := some summary, lastActivityAt := timestamp }

/-- `evolveCheckpointApproved` from evolve.ts: a no-op unless the id
matches the pending checkpoint. -/
def evolveCheckpointApproved (state : State) (checkpointId : String)
    (timestamp : Timestamp) : State :=
  match state.pendingCheckpoint with
  | none => state
  | some pending =>
    if pending.id = checkpointId then
      { state with
        lastApprovedCheckpoint := some pending
        pendingCheckpoint := none
        lastActivityAt := timestamp }
    else state

/-- `evolveCheckpointRejected` from evolve.ts (same id guard). -/
def evolveCheckpointRejected (state : State) (checkpointId : String)
    (timestamp : Timestamp) : State :=
  match state.pendingCheckpoint with
  | none => state
  | some pending =>
    if pending.id = checkpointId then
      { state with pendingCheckpoint := none, lastActivityAt := timestamp }
    else state

/-- `evolveConvergenceReached` from evolve.ts. -/
def evolveConvergenceReached (state : State) (finalConfidence : ℚ)
    (timestamp : Timestamp) : State :=
  { state with
    converged := true
    confidence := { state.confidence with overallScore := finalConfidence }
    lastActivityAt := timestamp }

/-- `evolveBudgetExhausted` from evolve.ts. -/
def evolveBudgetExhausted (state : State) (phase : Phase) (turnsUsed : Nat)
    (timestamp : Timestamp) : State :=
  let updatedBudgets := state.budgets.map fun b =>
    if b.phase = phase then { b with usedTurns := turnsUsed } else b
  { state with budgets := updatedBudgets, lastActivityAt := timestamp }

/-- `evolveErrorOccurred` from evolve.ts. -/
def evolveErrorOccurred (state : State) (timestamp : Timestamp) : State :=
  { state with lastActivityAt := timestamp }

/-- `evolve` from evolve.ts: one match arm per event kind. -/
def evolve (state : State) (event : Event) : State :=
  match event with
  | Event.Initialized prompt checklist budgets timestamp =>
    evolveInitialized state prompt checklist budgets timestamp
  | Event.PhaseStarted phase budget timestamp =>
    evolvePhaseStarted state phase budget timestamp
  | Event.PhaseCompleted phase turnsUsed timestamp =>
    evolvePhaseCompleted state phase turnsUsed timestamp
  | Event.TurnStarted turn _ timestamp =>
    evolveTurnStarted state turn timestamp
  | Event.TurnCompleted _ phase _ timestamp =>
    evolveTurnCompleted state phase timestamp
  | Event.ArtifactCreated artifact timestamp =>
    evolveArtifactCreated state artifact timestamp
  | Event.ArtifactUpdated artifactId newHash timestamp =>
    evolveArtifactUpdated state artifactId newHash timestamp
  | Event.ChecklistItemCompleted itemId evidence timestamp =>
    evolveChecklistItemCompleted state itemId evidence timestamp
  | Event.TestsPassed result timestamp =>
    evolveTestsPassed state result timestamp
  | Event.TestsFailed result timestamp =>
    evolveTestsFailed state result timestamp
  | Event.TypeCheckPassed timestamp =>
    evolveTypeCheckPassed state timestamp
  | Event.TypeCheckFailed _ timestamp =>
    evolveTypeCheckFailed state timestamp
  | Event.ConfidenceUpdated confidence timestamp =>
    evolveConfidenceUpdated state confidence timestamp
  | Event.CheckpointCreated summary timestamp =>
    evolveCheckpointCreated state summary timestamp
  | Event.CheckpointApproved checkpointId timestamp =>
    evolveCheckpointApproved state checkpointId timestamp
  | Event.CheckpointRejected checkpointId _ timestamp =>
    evolveCheckpointRejected state checkpointId timestamp
  | Event.ConvergenceReached finalConfidence _ timestamp =>
    evolveConvergenceReached state finalConfidence timestamp
  | Event.BudgetExhausted phase turnsUsed timestamp =>
    evolveBudgetExhausted state phase turnsUsed timestamp
  | Event.ErrorOccurred _ _ timestamp =>
    evolveErrorOccurred state timestamp

/-- `replay` from evolve.ts: state is the fold of events. -/
def replay (events : List Event) (initialState : State) : State :=
  events.foldl evolve initialState

/-- Runtime values appearing in the string-keyed `context`, `attributes`
and tool-use records of the decider (`Record<string, unknown>` in the
source): strings, numbers, booleans, string arrays, a checkpoint summary
object, and `undefined`. -/
inductive Value
  | str (s : String)
  | num (q : ℚ)
  | bool (b : Bool)
  | strList (l : List String)
  | cps (s : CheckpointSummary)
  | undef
deriving DecidableEq, Repr

/-- Log levels of the `Log` effect. -/
inductive LogLevel
  | debug
  | info
  | warn
  | error
deriving DecidableEq, Repr

/-- Span statuses of the `EndSpan` effect. -/
inductive SpanStatus
  | ok
  | error
deriving DecidableEq, Repr

/-- The fields of a tool-use `input` record that the decider reads
(`input as \x7b path?: string; content?: string \x7d` in the source; the
record itself is `Record<string, unknown>`, of which only these two keys
are ever consulted). -/
structure ToolUseInput where
  path : Option String
  content : Option String
deriving DecidableEq, Repr

structure ToolUse where
  tool : String
  input : ToolUseInput
  result : Option String
deriving DecidableEq, Repr

structure LLMResponse where
  content : String
  toolUses : List ToolUse
  tokensUsed : Nat
deriving DecidableEq, Repr

/-- Commands (`Command` in types.ts). -/
inductive Command
  | Initialize (prompt : String) (budgets : Option (List TurnBudget))
  | AdvancePhase
  | StartTurn
  | ProcessLLMResponse (response : LLMResponse)
  | RecordArtifact (path : String) (hash : String)
  | RecordTestResult (result : TestResult)
  | RecordTypeCheck (passed : Bool) (errors : Option (List String))
  | CompleteChecklistItem (itemId : String) (evidence : String)
  | RequestCheckpoint
  | ApproveCheckpoint
  | RejectCheckpoint (reason : String)
  | Timeout (phase : Phase)
  | Error (message : String) (recoverable : Bool)
deriving DecidableEq, Repr

/-- Effects (`Effect` in types.ts). -/
inductive Effect
  | InvokeLLM (prompt : String) (systemPrompt : Option String)
      (maxTokens : Nat) (temperature : Option ℚ)
  | WriteFile (path : String) (content : String)
  | ReadFile (path : String)
  | DeleteFile (path : String)
  | ListDirectory (path : String) (recursive : Option Bool)
  | RunTests (pattern : Option String) (coverage : Option Bool)
  | CheckTypes
  | ValidateSchema (schemaPath : String) (dataPath : String)
  | StartSpan (name : String) (attributes : List (String × Value))
  | EndSpan (spanId : String) (status : SpanStatus) (error : Option String)
  | RecordMetric (name : String) (value : ℚ) (tags : List (String × String))
  | Log (level : LogLevel) (message : String) (context : List (String × Value))
  | EmitCheckpoint (summary : CheckpointSummary)
  | WaitForApproval (checkpointId : String) (timeoutMs : Nat)
  | PersistEvent (event : Event)
  | CreateSnapshot (state : State) (atEventIndex : Nat)
deriving DecidableEq, Repr

/-- The `log` helper of the decider module. -/
def log (level : LogLevel) (message : String)
    (context : List (String × Value) := []) : Effect :=
  Effect.Log level message context

/-- The `startSpan` helper of the decider module. -/
def startSpan (name : String) (attributes : List (String × Value)) : Effect :=
  Effect.StartSpan name attributes

/-- The `recordMetric` helper of the decider module. -/
def recordMetric (name : String) (value : ℚ) (tags : List (String × String)) : Effect :=
  Effect.RecordMetric name value tags

/-- `isPhaseChecklistComplete` from the decider module. -/
def isPhaseChecklistComplete (state : State) (phase : Phase) : Bool :=
  let phaseItems := state.checklist.filter fun i => Decidable.decide (i.phase = phase)
  Decidable.decide (0 < phaseItems.length) && phaseItems.all fun i => i.completed

/-- `getIncompleteItems` from the decider module. -/
def getIncompleteItems (state : State) (phase : Phase) : List String :=
  (state.checklist.filter fun i =>
    Decidable.decide (i.phase = phase) && !i.completed).map fun i => i.description

/-- One fractional digit rendering of a rational, mirroring
`Number.prototype.toFixed(1)` for the nonnegative scores it is applied to. -/
def toFixed1 (q : ℚ) : String :=
  let scaled : Int := (q * 10 + 1/2).floor
  toString (scaled / 10) ++ "." ++ toString ((scaled % 10).natAbs)

def REQUIREMENTS_EXTRACTION_SYSTEM_PROMPT : String :=
  "You are an expert software architect. Your task is to analyze a project description and extract a structured checklist of requirements.\n\nFor each requirement, identify:\n1. The phase it belongs to (requirements, design, implementation, testing, documentation, verification)\n2. A clear, actionable description\n3. How completion can be verified\n\nOutput a JSON array of checklist items."

/-- `buildRequirementsExtractionPrompt` from the decider module. -/
def buildRequirementsExtractionPrompt (projectPrompt : String) : String :=
  "Analyze this project description and extract a comprehensive checklist of requirements:\n\nPROJECT DESCRIPTION:\n" ++
  projectPrompt ++
  "\n\nExtract requirements for ALL phases:\n- requirements: What must the software do? User stories, acceptance criteria\n- design: System architecture, component interfaces, data models\n- implementation: Code files to create, features to implement\n- testing: Test coverage, test types, edge cases\n- documentation: README, API docs, user guides\n- verification: Final checks, integration tests, deployment readiness\n\nOutput as JSON array:\n[\n  \x7b\n    \"phase\": \"requirements\",\n    \"description\": \"User can create an account with email and password\",\n    \"verification\": \"Registration endpoint returns 201 with user object\"\n  \x7d,\n  ...\n]"

/-- `buildPhasePrompt` from the decider module. -/
def buildPhasePrompt (state : State) : String :=
  let incompleteItems := String.intercalate "\n"
    (((state.checklist.filter fun i =>
        Decidable.decide (i.phase = state.phase) && !i.completed).map
      fun i => "- [ ] " ++ i.description))
  let completedItems := String.intercalate "\n"
    (((state.checklist.filter fun i =>
        Decidable.decide (i.phase = state.phase) && i.completed).map
      fun i => "- [x] " ++ i.description))
  let artifacts := String.intercalate "\n"
    (((state.artifacts.filter fun a =>
        Decidable.decide (a.phase = state.phase)).map
      fun a => "- " ++ a.path))
  "CURRENT PHASE: " ++ state.phase.toStr.toUpper ++
  "\nTURN: " ++ toString state.turn ++
  "\nCONFIDENCE: " ++ toFixed1 (state.confidence.overallScore * 100) ++ "%" ++
  "\n\nORIGINAL PROJECT PROMPT:\n" ++ state.prompt ++
  "\n\nCHECKLIST FOR THIS PHASE:\nCompleted:\n" ++
  (if completedItems = "" then "(none)" else completedItems) ++
  "\n\nRemaining:\n" ++
  (if incompleteItems = "" then "(all complete)" else incompleteItems) ++
  "\n\nARTIFACTS CREATED:\n" ++
  (if artifacts = "" then "(none yet)" else artifacts) ++
  "\n\nYour task: Complete the remaining checklist items for this phase. Write code, create files, and make progress."

/-- `getPhaseSystemPrompt` from the decider module. -/
def getPhaseSystemPrompt : Phase → String
  | Phase.requirements =>
    "You are analyzing and refining requirements. Focus on:\n- Clarifying ambiguous requirements\n- Identifying missing requirements\n- Breaking down complex requirements into smaller, testable items\nDo NOT write code yet."
  | Phase.design =>
    "You are designing the system architecture. Focus on:\n- Component interfaces (TypeScript types)\n- Data models (Zod schemas)\n- API contracts (OpenAPI-compatible)\n- File/folder structure\nCreate type definitions and interfaces, not implementations."
  | Phase.implementation =>
    "You are implementing the software. Focus on:\n- One file at a time\n- Following the design from previous phase\n- Writing clean, testable code\n- Using the established types and interfaces"
  | Phase.testing =>
    "You are writing and running tests. Focus on:\n- Property-based tests for core logic\n- Unit tests for edge cases\n- Integration tests for component interactions\n- Achieving meaningful coverage (not 100% for its own sake)"
  | Phase.documentation =>
    "You are writing documentation. Focus on:\n- README with setup instructions\n- API documentation\n- Code comments for complex logic only\n- Examples and usage patterns"
  | Phase.verification =>
    "You are verifying the complete system. Focus on:\n- All tests pass\n- Types are sound\n- Documentation is complete\n- System runs end-to-end\nReport any issues found."

/-- `decideInitialize` from the decider module. -/
def decideInitialize (prompt : String) (state : State) : List Effect :=
  if 0 < state.turn ∨ 0 < state.checklist.length then
    [log LogLevel.warn "Attempted to initialize already-started session"
      [("turn", Value.num (state.turn : ℚ))]]
  else
    [ log LogLevel.info "Initializing Turbine session"
        [("promptLength", Value.num (prompt.length : ℚ))],
      startSpan "turbine.session" [("prompt", Value.str (prompt.take 100))],
      Effect.InvokeLLM (buildRequirementsExtractionPrompt prompt)
        (some REQUIREMENTS_EXTRACTION_SYSTEM_PROMPT) 4000 none ]

/-- `decideAdvancePhase` from the decider module. -/
def decideAdvancePhase (state : State) : List Effect :=
  let currentIndex := PHASE_ORDER.indexOf state.phase
  match PHASE_ORDER.get? (currentIndex + 1) with
  | none =>
    [log LogLevel.info "Already at final phase, checking convergence"
      [("phase", Value.str state.phase.toStr)]]
  | some nextPhase =>
    if isPhaseChecklistComplete state state.phase then
      [ log LogLevel.info "Advancing to next phase"
          [("from", Value.str state.phase.toStr), ("to", Value.str nextPhase.toStr)],
        recordMetric "phase_completed" 1 [("phase", state.phase.toStr)] ]
    else
      [log LogLevel.warn "Cannot advance phase - checklist incomplete"
        [("phase", Value.str state.phase.toStr),
         ("incomplete", Value.strList (getIncompleteItems state state.phase))]]

/-- The effects produced by `decideStartTurn` once the convergence and
budget guards have passed: a turn span, an info log, and the phase-prompt
LLM invocation. -/
def startTurnEffects (state : State) : List Effect :=
  [ startSpan "turbine.turn"
      [("turn", Value.num ((state.turn + 1 : Nat) : ℚ)),
       ("phase", Value.str state.phase.toStr)],
    log LogLevel.info "Starting turn"
      [("turn", Value.num ((state.turn + 1 : Nat) : ℚ)),
       ("phase", Value.str state.phase.toStr)],
    Effect.InvokeLLM (buildPhasePrompt state)
      (some (getPhaseSystemPrompt state.phase)) 8000 none ]

/-- `decideStartTurn` from the decider module. -/
def decideStartTurn (state : State) : List Effect :=
  if hasConverged state then
    [log LogLevel.info "Session converged - no more turns needed"
      [("confidence", Value.num state.confidence.overallScore),
       ("streak", Value.num (state.convergenceStreak : ℚ))]]
  else
    match state.budgets.find? (fun b => Decidable.decide (b.phase = state.phase)) with
    | some budget =>
      if budget.maxTurns ≤ budget.usedTurns then
        [ log LogLevel.warn "Budget exhausted for phase"
            [("phase", Value.str state.phase.toStr),
             ("used", Value.num (budget.usedTurns : ℚ))],
          recordMetric "budget_exhausted" 1 [("phase", state.phase.toStr)] ]
      else startTurnEffects state
    | none => startTurnEffects state

/-- The `WriteFile` effect extracted from one tool use by
`decideProcessLLMResponse`, when the tool is `write_file` and both `path`
and `content` are present and truthy (the empty string is JS-falsy). -/
def writeFileEffect (toolUse : ToolUse) : Option Effect :=
  if toolUse.tool = "write_file" then
    match toolUse.input.path, toolUse.input.content with
    | some p, some c =>
      if p ≠ "" ∧ c ≠ "" then some (Effect.WriteFile p c) else none
    | _, _ => none
  else none

/-- `decideProcessLLMResponse` from the decider module. -/
def decideProcessLLMResponse (response : LLMResponse) (state : State) : List Effect :=
  [ log LogLevel.info "Processing LLM response"
      [("turn", Value.num (state.turn : ℚ)),
       ("tokensUsed", Value.num (response.tokensUsed : ℚ)),
       ("toolUseCount", Value.num (response.toolUses.length : ℚ))],
    recordMetric "tokens_used" (response.tokensUsed : ℚ) [("phase", state.phase.toStr)] ]
  ++ response.toolUses.filterMap writeFileEffect
  ++ (if state.phase = Phase.implementation ∨ state.phase = Phase.testing then
        [Effect.RunTests none (some true), Effect.CheckTypes]
      else [])

/-- `decideRecordArtifact` from the decider module. -/
def decideRecordArtifact (path : String) (hash : String) (state : State) : List Effect :=
  match state.artifacts.find? (fun a => Decidable.decide (a.path = path)) with
  | some _ =>
    [ log LogLevel.info "Artifact updated"
        [("path", Value.str path), ("newHash", Value.str hash)],
      recordMetric "artifact_updated" 1 [("phase", state.phase.toStr)] ]
  | none =>
    [ log LogLevel.info "Artifact created"
        [("path", Value.str path), ("hash", Value.str hash)],
      recordMetric "artifact_created" 1 [("phase", state.phase.toStr)] ]

/-- `decideRecordTestResult` from the decider module. -/
def decideRecordTestResult (result : TestResult) (state : State) : List Effect :=
  let newConfidence0 :=
    { state.confidence with
      testsPass := result.passed
      coverage := result.coverage.getD state.confidence.coverage }
  let newConfidence :=
    { newConfidence0 with overallScore := calculateOverallConfidence newConfidence0 }
  [ log LogLevel.info "Test results recorded"
      [("passed", Value.bool result.passed),
       ("total", Value.num (result.totalTests : ℚ)),
       ("failed", Value.num (result.failedTests : ℚ)),
       ("coverage", match result.coverage with
                    | some c => Value.num c
                    | none => Value.undef)],
    recordMetric "tests_total" (result.totalTests : ℚ) [("phase", state.phase.toStr)],
    recordMetric "tests_passed" (result.passedTests : ℚ) [("phase", state.phase.toStr)],
    recordMetric "tests_failed" (result.failedTests : ℚ) [("phase", state.phase.toStr)] ]
  ++ (match result.coverage with
      | some cov => [recordMetric "coverage" cov [("phase", state.phase.toStr)]]
      | none => [])
  ++ [recordMetric "confidence" newConfidence.overallScore [("phase", state.phase.toStr)]]

/-- `decideRecordTypeCheck` from the decider module (an empty errors
array is JS-truthy, so it still triggers the warn log). -/
def decideRecordTypeCheck (passed : Bool) (errors : Option (List String))
    (state : State) : List Effect :=
  [ log LogLevel.info "Type check result" [("passed", Value.bool passed)],
    recordMetric "type_check_passed" (if passed then 1 else 0)
      [("phase", state.phase.toStr)] ]
  ++ (match passed, errors with
      | false, some errs =>
        [log LogLevel.warn "Type errors found"
          [("count", Value.num (errs.length : ℚ)),
           ("errors", Value.strList (errs.take 5))]]
      | _, _ => [])

/-- `decideCompleteChecklistItem` from the decider module. -/
def decideCompleteChecklistItem (itemId : String) (evidence : String)
    (state : State) : List Effect :=
  match state.checklist.find? (fun i => Decidable.decide (i.id = itemId)) with
  | none =>
    [log LogLevel.warn "Checklist item not found" [("itemId", Value.str itemId)]]
  | some item =>
    if item.completed then
      [log LogLevel.info "Checklist item already completed" [("itemId", Value.str itemId)]]
    else
      [ log LogLevel.info "Checklist item completed"
          [("itemId", Value.str itemId),
           ("description", Value.str item.description),
           ("evidence", Value.str (evidence.take 100))],
        recordMetric "checklist_item_completed" 1 [("phase", item.phase.toStr)] ]

/-- `decideRequestCheckpoint` from the decider module; `freshId` models
the `uuid()` draw and `now` the `new Date()` read. -/
def decideRequestCheckpoint (state : State) (freshId : String)
    (now : Timestamp) : List Effect :=
  match state.pendingCheckpoint with
  | some pending =>
    [log LogLevel.warn "Checkpoint already pending"
      [("checkpointId", Value.str pending.id)]]
  | none =>
    let checklistCompleted := (state.checklist.filter fun i => i.completed).length
    let checklistTotal := state.checklist.length
    let summary : CheckpointSummary :=
      { id := freshId
        phase := state.phase
        turn := state.turn
        checklistProgress := { completed := checklistCompleted, total := checklistTotal }
        artifactCount := state.artifacts.length
        confidence := state.confidence.overallScore
        createdAt := now }
    [ log LogLevel.info "Checkpoint requested" [("summary", Value.cps summary)],
      Effect.EmitCheckpoint summary,
      Effect.WaitForApproval summary.id 300000 ]

/-- `decideApproveCheckpoint` from the decider module. -/
def decideApproveCheckpoint (state : State) : List Effect :=
  match state.pendingCheckpoint with
  | none => [log LogLevel.warn "No pending checkpoint to approve"]
  | some pending =>
    [ log LogLevel.info "Checkpoint approved"
        [("checkpointId", Value.str pending.id)],
      recordMetric "checkpoint_approved" 1 [("phase", state.phase.toStr)] ]

/-- `decideRejectCheckpoint` from the decider module. -/
def decideRejectCheckpoint (reason : String) (state : State) : List Effect :=
  match state.pendingCheckpoint with
  | none => [log LogLevel.warn "No pending checkpoint to reject"]
  | some pending =>
    [ log LogLevel.warn "Checkpoint rejected"
        [("checkpointId", Value.str pending.id), ("reason", Value.str reason)],
      recordMetric "checkpoint_rejected" 1 [("phase", state.phase.toStr)] ]

/-- `decideTimeout` from the decider module. -/
def decideTimeout (phase : Phase) (state : State) : List Effect :=
  [ log LogLevel.error "Phase timeout"
      [("phase", Value.str phase.toStr), ("turn", Value.num (state.turn : ℚ))],
    recordMetric "phase_timeout" 1 [("phase", phase.toStr)] ]

/-- `decideError` from the decider module. -/
def decideError (message : String) (recoverable : Bool) (state : State) : List Effect :=
  [ log LogLevel.error message
      [("recoverable", Value.bool recoverable), ("turn", Value.num (state.turn : ℚ))],
    recordMetric "errors_total" 1
      [("phase", state.phase.toStr), ("recoverable", toString recoverable)] ]

/-- `decide` from the decider module: pure dispatch on the command kind.
`freshId` and `now` make the `uuid()` and `new Date()` reads of
`decideRequestCheckpoint` explicit. -/
def decide (command : Command) (state : State) (freshId : String)
    (now : Timestamp) : List Effect :=
  match command with
  | Command.Initialize prompt _ => decideInitialize prompt state
  | Command.AdvancePhase => decideAdvancePhase state
  | Command.StartTurn => decideStartTurn state
  | Command.ProcessLLMResponse response => decideProcessLLMResponse response state
  | Command.RecordArtifact path hash => decideRecordArtifact path hash state
  | Command.RecordTestResult result => decideRecordTestResult result state
  | Command.RecordTypeCheck passed errors => decideRecordTypeCheck passed errors state
  | Command.CompleteChecklistItem itemId evidence =>
    decideCompleteChecklistItem itemId evidence state
  | Command.RequestCheckpoint => decideRequestCheckpoint state freshId now
  | Command.ApproveCheckpoint => decideApproveCheckpoint state
  | Command.RejectCheckpoint reason => decideRejectCheckpoint reason state
  | Command.Timeout phase => decideTimeout phase state
  | Command.Error message recoverable => decideError message recoverable state

/-! Sample values used to instantiate the universally quantified
theorems below at concrete inputs. -/

/-- A plain freshly initialized state. -/
def baseState : State := createInitialState "" 0

/-- A confidence record with every gate passing. -/
def confWitness : Confidence :=
  { typesSafe := true, schemaValid := true, testsPass := true
    coverage := 95, checklistComplete := true, overallScore := 0 }

/-- A passing test result with 95 percent coverage. -/
def testResult95 : TestResult :=
  { passed := true, totalTests := 10, passedTests := 10, failedTests := 0
    coverage := some 95, failures := [] }

/-! Theorems settling the claims. -/

/-- C1: for every confidence record with coverage between 0 and 100,
`calculateOverallConfidence` returns 0 when `typesSafe` is false, else 0
when `schemaValid` is false, else 3/10 when `testsPass` is false, else
1/2 plus `min (coverage/80) 1 * 1/4`, plus 1/4 when `checklistComplete`
is true, and the result never exceeds 1. -/
theorem C1_overall_confidence_formula (c : Confidence)
    (h : 0 ≤ c.coverage ∧ c.coverage ≤ 100) :
    calculateOverallConfidence c =
      (if c.typesSafe = false then 0
       else if c.schemaValid = false then 0
       else if c.testsPass = false then 3/10
       else 1/2 + min (c.coverage / 80) 1 * (1/4) +
            (if c.checklistComplete then 1/4 else 0)) ∧
    calculateOverallConfidence c ≤ 1 := by
  refine ⟨rfl, ?_⟩
  rcases c with ⟨ts, sv, tp, cov, cc, os⟩
  cases ts <;> cases sv <;> cases tp <;> cases cc <;>
    simp [calculateOverallConfidence] <;>
    nlinarith [min_le_right (cov / 80) (1 : ℚ)]

/-- Witness for C1 at a concrete confidence record. -/
theorem C1_overall_confidence_formula_witness :
    (0 ≤ confWitness.coverage ∧ confWitness.coverage ≤ 100) ∧
    calculateOverallConfidence confWitness ≤ 1 :=
  ⟨by norm_num [confWitness],
   (C1_overall_confidence_formula confWitness (by norm_num [confWitness])).2⟩

/-- C2: from any state whose confidence has `typesSafe`, `schemaValid`
and `checklistComplete` true, coverage 95 and convergence streak 0,
applying three `TestsPassed` events whose results carry coverage 95
yields overall score 1, streak 3, and `converged = true`. -/
theorem C2_convergence_in_three_ticks (s : State) (r1 r2 r3 : TestResult)
    (t1 t2 t3 : Timestamp)
    (hts : s.confidence.typesSafe = true)
    (hsv : s.confidence.schemaValid = true)
    (hcc : s.confidence.checklistComplete = true)
    (hcov : s.confidence.coverage = 95)
    (hstreak : s.convergenceStreak = 0)
    (h1 : r1.coverage = some 95) (h2 : r2.coverage = some 95)
    (h3 : r3.coverage = some 95) :
    (evolve (evolve (evolve s (Event.TestsPassed r1 t1))
        (Event.TestsPassed r2 t2)) (Event.TestsPassed r3 t3)).confidence.overallScore = 1 ∧
    (evolve (evolve (evolve s (Event.TestsPassed r1 t1))
        (Event.TestsPassed r2 t2)) (Event.TestsPassed r3 t3)).convergenceStreak = 3 ∧
    (evolve (evolve (evolve s (Event.TestsPassed r1 t1))
        (Event.TestsPassed r2 t2)) (Event.TestsPassed r3 t3)).converged = true := by
  have hmin : min ((95 : ℚ) / 80) 1 = 1 := by
    rw [min_eq_right]
    norm_num
  simp [evolve, evolveTestsPassed, h1, h2, h3, hts, hsv, hcc, hcov, hstreak,
    calculateOverallConfidence, hasConverged, CONVERGENCE_THRESHOLD,
    CONVERGENCE_STREAK_REQUIRED, hmin]
  norm_num

/-- Witness for C2 at a concrete state and concrete events. -/
theorem C2_convergence_in_three_ticks_witness :
    (evolve (evolve (evolve
        { baseState with confidence := confWitness }
        (Event.TestsPassed testResult95 1))
        (Event.TestsPassed testResult95 2))
        (Event.TestsPassed testResult95 3)).converged = true :=
  (C2_convergence_in_three_ticks { baseState with confidence := confWitness }
    testResult95 testResult95 testResult95 1 2 3
    rfl rfl rfl rfl rfl rfl rfl rfl).2.2

/-! Field-preservation lemmas for the checkpoint arms of `evolve` (the
only arms whose result depends on a guard). -/

@[simp] lemma evolveCheckpointApproved_turn (s : State) (c : String) (t : Timestamp) :
    (evolveCheckpointApproved s c t).turn = s.turn := by
  unfold evolveCheckpointApproved
  cases s.pendingCheckpoint with
  | none => rfl
  | some p => by_cases h : p.id = c <;> simp [h]

@[simp] lemma evolveCheckpointApproved_phase (s : State) (c : String) (t : Timestamp) :
    (evolveCheckpointApproved s c t).phase = s.phase := by
  unfold evolveCheckpointApproved
  cases s.pendingCheckpoint with
  | none => rfl
  | some p => by_cases h : p.id = c <;> simp [h]

@[simp] lemma evolveCheckpointApproved_confidence (s : State) (c : String) (t : Timestamp) :
    (evolveCheckpointApproved s c t).confidence = s.confidence := by
  unfold evolveCheckpointApproved
  cases s.pendingCheckpoint with
  | none => rfl
  | some p => by_cases h : p.id = c <;> simp [h]

@[simp] lemma evolveCheckpointApproved_streak (s : State) (c : String) (t : Timestamp) :
    (evolveCheckpointApproved s c t).convergenceStreak = s.convergenceStreak := by
  unfold evolveCheckpointApproved
  cases s.pendingCheckpoint with
  | none => rfl
  | some p => by_cases h : p.id = c <;> simp [h]

@[simp] lemma evolveCheckpointApproved_converged (s : State) (c : String) (t : Timestamp) :
    (evolveCheckpointApproved s c t).converged = s.converged := by
  unfold evolveCheckpointApproved
  cases s.pendingCheckpoint with
  | none => rfl
  | some p => by_cases h : p.id = c <;> simp [h]

@[simp] lemma evolveCheckpointRejected_turn (s : State) (c : String) (t : Timestamp) :
    (evolveCheckpointRejected s c t).turn = s.turn := by
  unfold evolveCheckpointRejected
  cases s.pendingCheckpoint with
  | none => rfl
  | some p => by_cases h : p.id = c <;> simp [h]

@[simp] lemma evolveCheckpointRejected_phase (s : State) (c : String) (t : Timestamp) :
    (evolveCheckpointRejected s c t).phase = s.phase := by
  unfold evolveCheckpointRejected
  cases s.pendingCheckpoint with
  | none => rfl
  | some p => by_cases h : p.id = c <;> simp [h]

@[simp] lemma evolveCheckpointRejected_confidence (s : State) (c : String) (t : Timestamp) :
    (evolveCheckpointRejected s c t).confidence = s.confidence := by
  unfold evolveCheckpointRejected
  cases s.pendingCheckpoint with
  | none => rfl
  | some p => by_cases h : p.id = c <;> simp [h]

@[simp] lemma evolveCheckpointRejected_streak (s : State) (c : String) (t : Timestamp) :
    (evolveCheckpointRejected s c t).convergenceStreak = s.convergenceStreak := by
  unfold evolveCheckpointRejected
  cases s.pendingCheckpoint with
  | none => rfl
  | some p => by_cases h : p.id = c <;> simp [h]

@[simp] lemma evolveCheckpointRejected_converged (s : State) (c : String) (t : Timestamp) :
    (evolveCheckpointRejected s c t).converged = s.converged := by
  unfold evolveCheckpointRejected
  cases s.pendingCheckpoint with
  | none => rfl
  | some p => by_cases h : p.id = c <;> simp [h]

/-- The next phase computed by `evolvePhaseCompleted` never has a smaller
index than the phase of the event. -/
lemma indexOf_nextPhase (p : Phase) :
    PHASE_ORDER.indexOf p ≤
      PHASE_ORDER.indexOf (PHASE_ORDER.getD (PHASE_ORDER.indexOf p + 1) p) := by
  cases p <;> decide

/-- C3 counterexample: `TurnStarted` overwrites the turn counter with the
value carried by the event, so from a state at turn 5 a `TurnStarted`
event with turn 0 strictly decreases the counter. -/
theorem C3_counterexample :
    ¬ (({ baseState with turn := 5 } : State).turn ≤
       (evolve { baseState with turn := 5 }
         (Event.TurnStarted 0 Phase.requirements 0)).turn) := by
  decide

/-- C3 amended: the turn counter never decreases across `evolve`, except
that `Initialized` resets it to 0 and `TurnStarted` overwrites it with
the turn carried by the event; under the hypothesis excluding those two
overwrites the counter is monotone. -/
theorem C3_turn_monotone (s : State) (e : Event)
    (h : match e with
         | Event.Initialized _ _ _ _ => False
         | Event.TurnStarted n _ _ => s.turn ≤ n
         | _ => True) :
    s.turn ≤ (evolve s e).turn := by
  cases e with
  | Initialized prompt checklist budgets timestamp => exact h.elim
  | TurnStarted n phase timestamp => exact h
  | CheckpointApproved c timestamp => simp [evolve]
  | CheckpointRejected c r timestamp => simp [evolve]
  | _ => exact le_refl _

/-- Witness for C3 at a concrete state and event. -/
theorem C3_turn_monotone_witness :
    baseState.turn ≤ (evolve baseState (Event.ErrorOccurred "" true 7)).turn :=
  C3_turn_monotone baseState (Event.ErrorOccurred "" true 7) trivial

/-- C4 counterexample: `Initialized` resets the phase to `requirements`,
so from a state in the `design` phase the phase index strictly
decreases. -/
theorem C4_counterexample :
    ¬ (PHASE_ORDER.indexOf ({ baseState with phase := Phase.design } : State).phase ≤
       PHASE_ORDER.indexOf (evolve { baseState with phase := Phase.design }
         (Event.Initialized "" [] [] 0)).phase) := by
  decide

/-- C4 amended: the index of the phase in `PHASE_ORDER` never decreases
across `evolve`, except that `Initialized` resets the phase to
`requirements` and `PhaseStarted` and `PhaseCompleted` take their phase
from the event; when the event phase is at least the current phase (and
the event is not `Initialized`) the index is monotone. -/
theorem C4_phase_monotone (s : State) (e : Event)
    (h : match e with
         | Event.Initialized _ _ _ _ => False
         | Event.PhaseStarted p _ _ =>
             PHASE_ORDER.indexOf s.phase ≤ PHASE_ORDER.indexOf p
         | Event.PhaseCompleted p _ _ =>
             PHASE_ORDER.indexOf s.phase ≤ PHASE_ORDER.indexOf p
         | _ => True) :
    PHASE_ORDER.indexOf s.phase ≤ PHASE_ORDER.indexOf (evolve s e).phase := by
  cases e with
  | Initialized prompt checklist budgets timestamp => exact h.elim
  | PhaseStarted p budget timestamp => exact h
  | PhaseCompleted p turnsUsed timestamp =>
    exact le_trans h (indexOf_nextPhase p)
  | CheckpointApproved c timestamp => simp [evolve]
  | CheckpointRejected c r timestamp => simp [evolve]
  | _ => exact le_refl _

/-- Witness for C4 at a concrete state and event. -/
theorem C4_phase_monotone_witness :
    PHASE_ORDER.indexOf baseState.phase ≤
      PHASE_ORDER.indexOf (evolve baseState (Event.PhaseCompleted Phase.requirements 3 9)).phase :=
  C4_phase_monotone baseState (Event.PhaseCompleted Phase.requirements 3 9) (by decide)

/-- C9 counterexample: the id-mismatch branch of `evolveCheckpointApproved`
returns the state unchanged, so `lastActivityAt` is not set to the event
timestamp there. -/
theorem C9_counterexample :
    ¬ ((evolve baseState (Event.CheckpointApproved "c" 99)).lastActivityAt =
       (Event.CheckpointApproved "c" 99).timestamp) := by
  decide

/-- C9 amended: every arm of `evolve` sets `lastActivityAt` to the event
timestamp, except the no-op mismatch branches of `CheckpointApproved` and
`CheckpointRejected`; when those two events carry the id of the pending
checkpoint the update always happens. -/
theorem C9_last_activity (s : State) (e : Event)
    (h : match e with
         | Event.CheckpointApproved c _ =>
             s.pendingCheckpoint.map CheckpointSummary.id = some c
         | Event.CheckpointRejected c _ _ =>
             s.pendingCheckpoint.map CheckpointSummary.id = some c
         | _ => True) :
    (evolve s e).lastActivityAt = e.timestamp := by
  cases e with
  | CheckpointApproved c timestamp =>
    cases hp : s.pendingCheckpoint with
    | none => rw [hp] at h; exact absurd h (by simp)
    | some p =>
      rw [hp] at h
      simp at h
      simp [evolve, evolveCheckpointApproved, Event.timestamp, hp, h]
  | CheckpointRejected c r timestamp =>
    cases hp : s.pendingCheckpoint with
    | none => rw [hp] at h; exact absurd h (by simp)
    | some p =>
      rw [hp] at h
      simp at h
      simp [evolve, evolveCheckpointRejected, Event.timestamp, hp, h]
  | _ => rfl

/-- Witness for C9 at a concrete state and event. -/
theorem C9_last_activity_witness :
    (evolve baseState (Event.TypeCheckPassed 42)).lastActivityAt =
      (Event.TypeCheckPassed 42).timestamp :=
  C9_last_activity baseState (Event.TypeCheckPassed 42) trivial

/-- The convergence invariant of the specification: a converged state has
overall score at least 9/10 and a convergence streak of at least 3. -/
def ConvergedInvariant (s : State) : Prop :=
  s.converged = true →
    (9/10 : ℚ) ≤ s.confidence.overallScore ∧ 3 ≤ s.convergenceStreak

/-- C5 counterexample: `ConvergenceReached` sets `converged := true` and
overwrites the overall score with the value carried by the event, so from
a state satisfying the invariant, an event with final confidence 1/2
produces a state that violates it. -/
theorem C5_counterexample :
    ConvergedInvariant baseState ∧
    ¬ ConvergedInvariant (evolve baseState (Event.ConvergenceReached (1/2) 0 0)) := by
  constructor
  · intro hc
    exact absurd hc (by decide)
  · intro hinv
    have hconv : (evolve baseState (Event.ConvergenceReached (1/2) 0 0)).converged = true := rfl
    have hscore :
        (evolve baseState (Event.ConvergenceReached (1/2) 0 0)).confidence.overallScore
          = 1/2 := rfl
    have h1 := (hinv hconv).1
    rw [hscore] at h1
    norm_num at h1

/-- C5 amended: `evolve` preserves the convergence invariant for every
event except `TestsFailed`, `TypeCheckPassed`, `TypeCheckFailed`,
`ChecklistItemCompleted` and `ConvergenceReached` (each of those can keep
`converged = true` while dropping the stored score below 9/10 or the
streak below 3). -/
theorem C5_invariant_preserved (s : State) (e : Event)
    (hInv : ConvergedInvariant s)
    (hKind : match e with
             | Event.TestsFailed _ _ => False
             | Event.TypeCheckPassed _ => False
             | Event.TypeCheckFailed _ _ => False
             | Event.ChecklistItemCompleted _ _ _ => False
             | Event.ConvergenceReached _ _ _ => False
             | _ => True) :
    ConvergedInvariant (evolve s e) := by
  cases e with
  | TestsFailed r t => exact hKind.elim
  | TypeCheckPassed t => exact hKind.elim
  | TypeCheckFailed errs t => exact hKind.elim
  | ChecklistItemCompleted i ev t => exact hKind.elim
  | ConvergenceReached f n t => exact hKind.elim
  | TestsPassed r t =>
    intro hc
    simp only [evolve, evolveTestsPassed, hasConverged, CONVERGENCE_THRESHOLD,
      CONVERGENCE_STREAK_REQUIRED, Bool.and_eq_true, decide_eq_true_eq] at hc ⊢
    exact hc
  | ConfidenceUpdated conf t =>
    intro hc
    simp only [evolve, evolveConfidenceUpdated, hasConverged, CONVERGENCE_THRESHOLD,
      CONVERGENCE_STREAK_REQUIRED, Bool.and_eq_true, decide_eq_true_eq] at hc ⊢
    exact hc
  | CheckpointApproved c t =>
    intro hc
    rw [show (evolve s (Event.CheckpointApproved c t)).converged = s.converged from
      by simp [evolve]] at hc
    obtain ⟨h1, h2⟩ := hInv hc
    constructor
    · simpa [evolve] using h1
    · simpa [evolve] using h2
  | CheckpointRejected c r t =>
    intro hc
    rw [show (evolve s (Event.CheckpointRejected c r t)).converged = s.converged from
      by simp [evolve]] at hc
    obtain ⟨h1, h2⟩ := hInv hc
    constructor
    · simpa [evolve] using h1
    · simpa [evolve] using h2
  | _ => exact hInv

/-- Witness for C5 at a concrete state and event. -/
theorem C5_invariant_preserved_witness :
    ConvergedInvariant (evolve baseState (Event.ErrorOccurred "" true 3)) :=
  C5_invariant_preserved baseState (Event.ErrorOccurred "" true 3)
    (fun hc => absurd hc (by decide)) trivial

/-- C7: applying a `CheckpointApproved` event with the same checkpoint id
twice in succession is idempotent; the second application leaves the
state unchanged. -/
theorem C7_checkpoint_approved_idempotent (s : State) (c : String)
    (t1 t2 : Timestamp) :
    evolve (evolve s (Event.CheckpointApproved c t1)) (Event.CheckpointApproved c t2) =
      evolve s (Event.CheckpointApproved c t1) := by
  simp only [evolve, evolveCheckpointApproved]
  cases h : s.pendingCheckpoint with
  | none => simp [h]
  | some pending =>
    by_cases hid : pending.id = c
    · simp [h, hid]
    · simp [h, hid]

/-- Recognizer for `InvokeLLM` effects. -/
def Effect.isInvokeLLM : Effect → Bool
  | Effect.InvokeLLM _ _ _ _ => true
  | _ => false

/-- Recognizer for the persistence effects `PersistEvent` and
`CreateSnapshot`. -/
def Effect.isPersistence : Effect → Bool
  | Effect.PersistEvent _ => true
  | Effect.CreateSnapshot _ _ => true
  | _ => false

/-- A state in the implementation phase with two budget entries for that
phase: the first still has turns left, the second is exhausted. -/
def dupBudgetState : State :=
  { baseState with
    phase := Phase.implementation
    budgets := [{ phase := Phase.implementation, maxTurns := 10, usedTurns := 0 },
                { phase := Phase.implementation, maxTurns := 1, usedTurns := 1 }] }

/-- A state in the implementation phase whose only budget entry for that
phase is exhausted. -/
def exhaustedBudgetState : State :=
  { baseState with
    phase := Phase.implementation
    budgets := [{ phase := Phase.implementation, maxTurns := 1, usedTurns := 1 }] }

/-- A state sitting at the last phase of `PHASE_ORDER`. -/
def finalPhaseState : State := { baseState with phase := Phase.verification }

/-- A state whose stored overall score is below the convergence
threshold has not converged. -/
lemma hasConverged_false_of_score (s : State)
    (h : s.confidence.overallScore < 9/10) : hasConverged s = false := by
  have hn : ¬ (CONVERGENCE_THRESHOLD ≤ s.confidence.overallScore) := by
    rw [CONVERGENCE_THRESHOLD]
    exact not_le.mpr h
  simp [hasConverged, hn]

/-- C6 counterexample: the decider looks up the budget with `find?`
(first matching entry), so a state whose budgets list contains an
exhausted entry for the current phase behind a non-exhausted one still
produces an `InvokeLLM` effect, contradicting the claim as stated. -/
theorem C6_counterexample :
    hasConverged dupBudgetState = false ∧
    (∃ b ∈ dupBudgetState.budgets,
      b.phase = dupBudgetState.phase ∧ b.maxTurns ≤ b.usedTurns) ∧
    (decide Command.StartTurn dupBudgetState "x" 0).any Effect.isInvokeLLM = true := by
  have h0 : hasConverged dupBudgetState = false :=
    hasConverged_false_of_score _
      (by norm_num [dupBudgetState, baseState, createInitialState])
  have hfind : dupBudgetState.budgets.find?
      (fun b => Decidable.decide (b.phase = dupBudgetState.phase)) =
      some { phase := Phase.implementation, maxTurns := 10, usedTurns := 0 } := rfl
  refine ⟨h0, by decide, ?_⟩
  simp [decide, decideStartTurn, h0, hfind, startTurnEffects, Effect.isInvokeLLM,
    log, startSpan]

/-- C6 amended: when the state has not converged and the first budgets
entry for the current phase (the one `find?` returns) has
`usedTurns ≥ maxTurns`, `decide` on `StartTurn` returns exactly a
warn-level `Log` and a `budget_exhausted` `RecordMetric`, and in
particular no `InvokeLLM` effect. -/
theorem C6_budget_exhausted (s : State) (freshId : String) (now : Timestamp)
    (b : TurnBudget)
    (hconv : hasConverged s = false)
    (hfind : s.budgets.find? (fun x => Decidable.decide (x.phase = s.phase)) = some b)
    (hex : b.maxTurns ≤ b.usedTurns) :
    decide Command.StartTurn s freshId now =
      [Effect.Log LogLevel.warn "Budget exhausted for phase"
        [("phase", Value.str s.phase.toStr), ("used", Value.num (b.usedTurns : ℚ))],
       Effect.RecordMetric "budget_exhausted" 1 [("phase", s.phase.toStr)]] ∧
    (decide Command.StartTurn s freshId now).any Effect.isInvokeLLM = false := by
  have hmain : decide Command.StartTurn s freshId now =
      [Effect.Log LogLevel.warn "Budget exhausted for phase"
        [("phase", Value.str s.phase.toStr), ("used", Value.num (b.usedTurns : ℚ))],
       Effect.RecordMetric "budget_exhausted" 1 [("phase", s.phase.toStr)]] := by
    simp [decide, decideStartTurn, hconv, hfind, hex, log, recordMetric]
  refine ⟨hmain, ?_⟩
  rw [hmain]
  rfl

/-- Witness for C6 at a concrete state. -/
theorem C6_budget_exhausted_witness :
    (decide Command.StartTurn exhaustedBudgetState "x" 0).any Effect.isInvokeLLM = false :=
  (C6_budget_exhausted exhaustedBudgetState "x" 0
    { phase := Phase.implementation, maxTurns := 1, usedTurns := 1 }
    (hasConverged_false_of_score _
      (by norm_num [exhaustedBudgetState, baseState, createInitialState]))
    rfl (by decide)).2

/-- C8 counterexample: at the final phase the decider emits an info-level
log, not a warn-level one, so the claim as stated fails. -/
theorem C8_counterexample :
    ¬ ∃ m c, decide Command.AdvancePhase finalPhaseState "x" 0 =
      [Effect.Log LogLevel.warn m c] := by
  rintro ⟨m, c, h⟩
  have heval : decide Command.AdvancePhase finalPhaseState "x" 0 =
      [Effect.Log LogLevel.info "Already at final phase, checking convergence"
        [("phase", Value.str "verification")]] := rfl
  rw [heval] at h
  simp at h

/-- C8 amended: for every state whose current phase is the last element
of `PHASE_ORDER` (`verification`), `decide` on `AdvancePhase` returns
exactly one effect, an info-level `Log` (the source logs at info level,
not warn). -/
theorem C8_advance_at_final (s : State) (freshId : String) (now : Timestamp)
    (h : s.phase = Phase.verification) :
    decide Command.AdvancePhase s freshId now =
      [Effect.Log LogLevel.info "Already at final phase, checking convergence"
        [("phase", Value.str s.phase.toStr)]] := by
  have h6 : (PHASE_ORDER[PHASE_ORDER.indexOf s.phase + 1]? : Option Phase) = none := by
    rw [h]
    rfl
  simp [decide, decideAdvancePhase, h6, log]

/-- Witness for C8 at a concrete state. -/
theorem C8_advance_at_final_witness :
    decide Command.AdvancePhase finalPhaseState "x" 0 =
      [Effect.Log LogLevel.info "Already at final phase, checking convergence"
        [("phase", Value.str finalPhaseState.phase.toStr)]] :=
  C8_advance_at_final finalPhaseState "x" 0 rfl

/-- Every effect produced from a tool use by `writeFileEffect` is a
`WriteFile`, hence not a persistence effect. -/
lemma all_filterMap_writeFileEffect (l : List ToolUse) :
    (l.filterMap writeFileEffect).all (fun ef => !Effect.isPersistence ef) = true := by
  rw [List.all_eq_true]
  intro ef hef
  rw [List.mem_filterMap] at hef
  obtain ⟨tu, htu, h⟩ := hef
  unfold writeFileEffect at h
  split at h
  all_goals try exact Option.noConfusion h
  split at h
  all_goals try exact Option.noConfusion h
  split at h
  all_goals try exact Option.noConfusion h
  injection h with h
  subst h
  rfl

/-- C10: for every command and state, the effect list returned by
`decide` is non-empty and contains no `PersistEvent` and no
`CreateSnapshot` effect. -/
theorem C10_decide_no_persistence (cmd : Command) (s : State)
    (freshId : String) (now : Timestamp) :
    decide cmd s freshId now ≠ [] ∧
    (decide cmd s freshId now).all (fun ef => !Effect.isPersistence ef) = true := by
  cases cmd
  case ProcessLLMResponse response =>
    constructor
    · simp [decide, decideProcessLLMResponse]
    · show (decideProcessLLMResponse response s).all _ = true
      unfold decideProcessLLMResponse
      simp only [List.all_append, Bool.and_eq_true]
      refine ⟨⟨?_, ?_⟩, ?_⟩
      · rfl
      · exact all_filterMap_writeFileEffect _
      · split <;> rfl
  all_goals
    refine ⟨?_, ?_⟩ <;>
    simp only [decide, decideInitialize, decideAdvancePhase, decideStartTurn,
      startTurnEffects, decideRecordArtifact,
      decideRecordTestResult, decideRecordTypeCheck, decideCompleteChecklistItem,
      decideRequestCheckpoint, decideApproveCheckpoint, decideRejectCheckpoint,
      decideTimeout, decideError, log, startSpan, recordMetric] <;>
    (repeat' split) <;>
    simp [Effect.isPersistence, List.all_append]

end Turbine
